import Mathlib

/-!
Verification of the Face-Attendance-System repository.

Shallow embedding of `camera_engine.py` (class `CameraEngine`) and of the
relevant routes of `app.py`.  Python floats are modelled as real numbers,
`time.time()` values as rationals, Firestore collections as functions from
document id to an optional document, and external calls (Firestore reads and
writes, `DeepFace.represent`, camera reads) as explicit outcome parameters of
type `Except`/`Option`.  Functions that in Python mutate `self` are modelled
as state transformers returning the new state, together with counters for the
number of external calls performed.
-/

/-! ## Vectors and cosine similarity (`_cosine_similarity`, lines 262-271) -/

/-- `np.dot` of two 1-d arrays: sum of pairwise products. -/
def dot (vec1 vec2 : List ℝ) : ℝ :=
  (List.zipWith (fun a b => a * b) vec1 vec2).sum

/-- `np.linalg.norm`: square root of the sum of squares. -/
noncomputable def vnorm (v : List ℝ) : ℝ :=
  Real.sqrt ((v.map (fun x => x * x)).sum)

/-- `CameraEngine._cosine_similarity`: returns `0.0` when either magnitude is
zero, otherwise the dot product divided by the product of the magnitudes. -/
noncomputable def cosine_similarity (vec1 vec2 : List ℝ) : ℝ :=
  if vnorm vec1 = 0 ∨ vnorm vec2 = 0 then 0
  else dot vec1 vec2 / (vnorm vec1 * vnorm vec2)

/-! ## Engine state and the students cache (`__init__` lines 39-55,
`_update_students_cache` lines 78-102) -/

/-- One entry of `students_cache` as built in `_update_students_cache`. -/
structure CachedStudent where
  id : String
  name : String
  student_id : String
  embedding : List ℝ

/-- The dictionary stored in a Firestore student document (`doc.to_dict()`);
absent keys are `none`. -/
structure StudentDocData where
  name : Option String
  student_id : Option String
  embedding : Option (List ℝ)

/-- A document snapshot from `students_ref.stream()`: its id and its data. -/
structure StudentDocSnap where
  id : String
  data : StudentDocData

/-- Mutable state of `CameraEngine` relevant to the verified claims. -/
structure EngineState where
  mode : String
  recognized_students : String → Option (String × ℚ)
  attendance_marked : List String
  students_cache : List CachedStudent
  last_cache_update : ℚ
  cache_lifetime : ℚ

/-- The engine state as set by `CameraEngine.__init__`. -/
def initEngineState : EngineState :=
  { mode := "registration"
    recognized_students := fun _ => none
    attendance_marked := []
    students_cache := []
    last_cache_update := 0
    cache_lifetime := 60 }

/-- The body of the `for doc in docs` loop of `_update_students_cache`: a
document contributes a cache entry when `'embedding' in data` and
`data['embedding']` is truthy (a non-empty list). -/
def parseCacheEntry (doc : StudentDocSnap) : Option CachedStudent :=
  match doc.data.embedding with
  | none => none
  | some e =>
      if e.isEmpty then none
      else some
        { id := doc.id
          name := doc.data.name.getD "Unknown"
          student_id := doc.data.student_id.getD ""
          embedding := e }

/-- `CameraEngine._update_students_cache`.  `now` is `time.time()` and
`streamResult` the outcome of the `students_ref.stream()` call (`Except.error`
when the Firestore read raises).  Returns the new state and the number of
database reads performed. -/
def update_students_cache (st : EngineState) (now : ℚ)
    (streamResult : Except String (List StudentDocSnap)) :
    EngineState × ℕ :=
  if now - st.last_cache_update < st.cache_lifetime then (st, 0)
  else
    match streamResult with
    | Except.error _ => (st, 1)
    | Except.ok docs =>
        ({ st with
            students_cache := docs.filterMap parseCacheEntry
            last_cache_update := now }, 1)

/-! ## Face recognition (`_recognize_face` lines 191-260) -/

/-- Cosine similarity of the extracted embedding against one cache entry. -/
noncomputable def simOf (cur : List ℝ) (s : CachedStudent) : ℝ :=
  cosine_similarity cur s.embedding

/-- One iteration of the `for student in self.students_cache` loop: the pair
carries `(best_match, best_similarity)` and is updated exactly when
`similarity > best_similarity`. -/
noncomputable def scanStep (cur : List ℝ)
    (acc : Option CachedStudent × ℝ) (student : CachedStudent) :
    Option CachedStudent × ℝ :=
  if acc.2 < simOf cur student then (some student, simOf cur student) else acc

/-- The whole matching loop of `_recognize_face`: a single linear pass
starting from `best_match = None`, `best_similarity = 0.6`. -/
noncomputable def bestMatch (cache : List CachedStudent) (cur : List ℝ) :
    Option CachedStudent × ℝ :=
  cache.foldl (scanStep cur) (none, (0.6 : ℝ))

/-- The body of `CameraEngine._recognize_face` after the inner
`_update_students_cache` call: `st1` is the refreshed engine state,
`faceImgSize` is `face_img.size` of the cropped region, and
`representResult` the outcome of `DeepFace.represent` (`Except.error` when it
raises; the surrounding `try` turns any exception into
`("Unknown", "unknown")`).  Returns the `(name, status)` pair and the new
engine state. -/
noncomputable def recognize_face_core (st1 : EngineState) (now : ℚ)
    (faceImgSize : ℕ)
    (representResult : Except String (List (List ℝ))) :
    (String × String) × EngineState :=
  if st1.students_cache.isEmpty then (("Unknown", "unknown"), st1)
  else if faceImgSize = 0 then (("Unknown", "unknown"), st1)
  else
    match representResult with
    | Except.error _ => (("Unknown", "unknown"), st1)
    | Except.ok [] => (("Unknown", "unknown"), st1)
    | Except.ok (emb :: _) =>
        match bestMatch st1.students_cache emb with
        | (some s, _) =>
            ((s.name,
              if s.student_id ∈ st1.attendance_marked then "already_marked"
              else "new"),
             { st1 with
                recognized_students := fun k =>
                  if k = s.student_id then some (s.name, now)
                  else st1.recognized_students k })
        | (none, _) => (("Unknown", "unknown"), st1)

/-- `CameraEngine._recognize_face` proper: first the inner
`_update_students_cache` call refreshes the engine state, then the matching
body runs on the refreshed state. -/
noncomputable def recognize_face (st : EngineState) (now : ℚ)
    (streamResult : Except String (List StudentDocSnap))
    (faceImgSize : ℕ)
    (representResult : Except String (List (List ℝ))) :
    (String × String) × EngineState :=
  recognize_face_core ((update_students_cache st now streamResult).1) now
    faceImgSize representResult

/-! ## Time formatting (`time.strftime` as used in `mark_attendance`) -/

/-- A broken-down local time as delivered by `time.localtime()`. -/
structure DateTime where
  year : ℕ
  month : ℕ
  day : ℕ
  hour : ℕ
  minute : ℕ
  second : ℕ

/-- Zero-padding to two digits, as `%m`, `%d`, `%H`, `%M`, `%S` produce. -/
def pad2 (n : ℕ) : String :=
  if n < 10 then "0" ++ toString n else toString n

/-- Zero-padding to four digits, as `%Y` produces for common years. -/
def pad4 (n : ℕ) : String :=
  if n < 10 then "000" ++ toString n
  else if n < 100 then "00" ++ toString n
  else if n < 1000 then "0" ++ toString n
  else toString n

/-- `time.strftime('%Y-%m-%d')`. -/
def formatDate (t : DateTime) : String :=
  pad4 t.year ++ "-" ++ pad2 t.month ++ "-" ++ pad2 t.day

/-- The `%H:%M:%S` part of `time.strftime('%Y-%m-%d %H:%M:%S')`. -/
def formatClock (t : DateTime) : String :=
  pad2 t.hour ++ ":" ++ pad2 t.minute ++ ":" ++ pad2 t.second

/-- `time.strftime('%Y-%m-%d %H:%M:%S')`. -/
def formatDateTime (t : DateTime) : String :=
  formatDate t ++ " " ++ formatClock t

/-! ## Firestore collections and written records -/

/-- A Firestore collection keyed by document id: the document model of the
database stores at most one document per id. -/
def Collection (α : Type) : Type := String → Option α

/-- `collection(...).document(k).set(v)`: stores `v` under `k`, replacing any
existing document with that id. -/
def setDoc {α : Type} (c : Collection α) (k : String) (v : α) : Collection α :=
  fun q => if q = k then some v else c q

/-- The value written for `firestore.SERVER_TIMESTAMP`. -/
inductive WriteTime where
  | serverTimestamp

/-- The student document written by `register_student` (lines 336-341). -/
structure StudentRecord where
  name : String
  student_id : String
  embedding : List ℝ
  registered_at : WriteTime

/-- The `attendance_data` dictionary written by `mark_attendance`
(lines 376-385). -/
structure AttendanceRecord where
  student_id : String
  name : String
  doctor_name : String
  course_name : String
  course_code : String
  timestamp : WriteTime
  marked_at : String
  lecture_date : String

/-- The `session_info` dictionary read with `.get(key, '')` defaults. -/
structure SessionInfo where
  doctor_name : Option String
  course_name : Option String
  course_code : Option String

/-! ## `capture_face` (lines 273-328) -/

/-- Raw image data (a frame or a cropped face region). -/
def Image : Type := List ℕ

/-- Result of `capture_face`, instrumented with the number of
`DeepFace.represent` calls performed. -/
structure CaptureResult where
  result : Option (Image × List ℝ)
  representCalls : ℕ

/-- `CameraEngine.capture_face`.  `camera` is `self.camera` (`none` when not
opened), `readResult` the outcome of `self.camera.read()`, `hasDetections`
whether MediaPipe returned any detection, `faceImg` the cropped face region
(its bounding-box arithmetic is outside the model), and `representResult` the
outcome of the `DeepFace.represent` call, whose exceptions the `try` block
turns into `None`. -/
def capture_face (is_running : Bool) (camera : Option Unit)
    (readResult : Option Image) (hasDetections : Bool) (faceImg : Image)
    (representResult : Except String (List (List ℝ))) : CaptureResult :=
  if is_running = false ∨ camera = none then ⟨none, 0⟩
  else
    match readResult with
    | none => ⟨none, 0⟩
    | some _ =>
        if hasDetections = false then ⟨none, 0⟩
        else if faceImg.isEmpty then ⟨none, 0⟩
        else
          match representResult with
          | Except.error _ => ⟨none, 1⟩
          | Except.ok [] => ⟨none, 1⟩
          | Except.ok (emb :: _) => ⟨some (faceImg, emb), 1⟩

/-! ## `register_student` (lines 330-354) -/

/-- Result of `register_student`: the returned boolean, the students
collection, `self.last_cache_update`, and the number of Firestore `set`
calls performed. -/
structure RegisterResult where
  ok : Bool
  students : Collection StudentRecord
  last_cache_update : ℚ
  setCalls : ℕ

/-- `CameraEngine.register_student`.  `setResult` is the outcome of the
Firestore `document(student_id).set(...)` call; an exception is caught, logged
and turned into `False`.  On success the cache is invalidated by setting
`self.last_cache_update = 0`. -/
def register_student (students : Collection StudentRecord)
    (last_cache_update : ℚ) (name : String) (student_id : String)
    (embedding : List ℝ) (setResult : Except String Unit) : RegisterResult :=
  match setResult with
  | Except.ok _ =>
      { ok := true
        students := setDoc students student_id
          { name := name, student_id := student_id, embedding := embedding
            registered_at := WriteTime.serverTimestamp }
        last_cache_update := 0
        setCalls := 1 }
  | Except.error _ =>
      { ok := false
        students := students
        last_cache_update := last_cache_update
        setCalls := 1 }

/-! ## `mark_attendance` (lines 356-398) -/

/-- Result of `mark_attendance`: the returned boolean, the updated
`attendance_marked` set, the attendance records successfully written, and the
numbers of Firestore reads (`get`) and writes (`add`) attempted. -/
structure MarkResult where
  ok : Bool
  attendance_marked : List String
  writes : List AttendanceRecord
  getCalls : ℕ
  addCalls : ℕ

/-- The `attendance_data` dictionary built by `mark_attendance` from the
student document read at marking time, the session info and the current
time. -/
def attendanceData (student_id : String) (data : StudentDocData)
    (session_info : SessionInfo) (now : DateTime) : AttendanceRecord :=
  { student_id := student_id
    name := data.name.getD "Unknown"
    doctor_name := session_info.doctor_name.getD ""
    course_name := session_info.course_name.getD ""
    course_code := session_info.course_code.getD ""
    timestamp := WriteTime.serverTimestamp
    marked_at := formatDateTime now
    lecture_date := formatDate now }

/-- `CameraEngine.mark_attendance`.  `marked` is `self.attendance_marked`,
`getResult` the outcome of the student document `get()` (`ok none` when the
document does not exist), `addResult` the outcome of the attendance `add()`,
and `now` the wall-clock time used by `time.strftime`.  Exceptions from
either Firestore call are caught and turned into `False`; the student id is
added to `attendance_marked` only after the `add` succeeds. -/
def mark_attendance (marked : List String) (student_id : String)
    (session_info : SessionInfo)
    (getResult : Except String (Option StudentDocData))
    (addResult : Except String Unit) (now : DateTime) : MarkResult :=
  if student_id ∈ marked then
    { ok := false, attendance_marked := marked, writes := []
      getCalls := 0, addCalls := 0 }
  else
    match getResult with
    | Except.error _ =>
        { ok := false, attendance_marked := marked, writes := []
          getCalls := 1, addCalls := 0 }
    | Except.ok none =>
        { ok := false, attendance_marked := marked, writes := []
          getCalls := 1, addCalls := 0 }
    | Except.ok (some data) =>
        match addResult with
        | Except.error _ =>
            { ok := false, attendance_marked := marked, writes := []
              getCalls := 1, addCalls := 1 }
        | Except.ok _ =>
            { ok := true
              attendance_marked := student_id :: marked
              writes := [attendanceData student_id data session_info now]
              getCalls := 1, addCalls := 1 }

/-! ## `add_course` (`app.py` lines 203-226) -/

/-- The `course_data` dictionary written by the admin `add_course` route. -/
structure CourseRecord where
  course_name : String
  course_code : String
  doctor_name : String
  password : String
  start_date : DateTime
  lecture_time : String
  total_lectures : ℤ
  class_capacity : ℤ
  created_at : DateTime

/-- The `add_course` route after request parsing: validates that
`total_lectures` and `class_capacity` are positive, then stores the course
document under `course_code` as its document id.  `setResult` is the outcome
of the Firestore `set` call; an exception yields a 500 error response
(`false` here) and leaves the model collection unchanged. -/
def add_course (courses : Collection CourseRecord) (course_name : String)
    (course_code : String) (doctor_name : String) (password : String)
    (start_date : DateTime) (lecture_time : String) (total_lectures : ℤ)
    (class_capacity : ℤ) (now : DateTime)
    (setResult : Except String Unit) : Bool × Collection CourseRecord :=
  if total_lectures ≤ 0 ∨ class_capacity ≤ 0 then (false, courses)
  else
    match setResult with
    | Except.error _ => (false, courses)
    | Except.ok _ =>
        (true,
         setDoc courses course_code
           { course_name := course_name, course_code := course_code
             doctor_name := doctor_name, password := password
             start_date := start_date, lecture_time := lecture_time
             total_lectures := total_lectures
             class_capacity := class_capacity, created_at := now })

/-! ## `video_feed` (`app.py` lines 548-568) -/

/-- The UTF-8 code points of a byte-string literal. -/
def strBytes (s : String) : List ℕ :=
  s.toList.map Char.toNat

/-- Observable events produced by the `generate()` streaming generator. -/
inductive FeedEvent where
  | sleep (seconds : ℚ)
  | chunk (payload : List ℕ)
deriving Repr

/-- The multipart chunk yielded for one JPEG frame:
`b'--frame\r\nContent-Type: image/jpeg\r\n\r\n' + frame + b'\r\n'`. -/
def mkChunk (frame : List ℕ) : List ℕ :=
  strBytes "--frame\r\nContent-Type: image/jpeg\r\n\r\n" ++ frame ++
    strBytes "\r\n"

/-- The blank chunk yielded once when the engine failed to initialize. -/
def blankChunk : List ℕ :=
  strBytes "--frame\r\nContent-Type: image/jpeg\r\n\r\n\r\n"

/-- The `while True` loop of `generate()`, observed over a finite list of
successive `get_frame()` results: a `None` result produces a
`time.sleep(0.1)` and a retry, a ready frame produces one multipart chunk. -/
def video_feed_loop : List (Option (List ℕ)) → List FeedEvent
  | [] => []
  | none :: rest => FeedEvent.sleep (1/10) :: video_feed_loop rest
  | some f :: rest => FeedEvent.chunk (mkChunk f) :: video_feed_loop rest

/-- The whole `generate()` body: with no engine it yields the blank chunk and
returns; otherwise it runs the retry loop over the `get_frame()` results. -/
def video_feed (engine : Option Unit) (frames : List (Option (List ℕ))) :
    List FeedEvent :=
  match engine with
  | none => [FeedEvent.chunk blankChunk]
  | some _ => video_feed_loop frames

/-! ## Concrete data used for witnesses and counterexamples -/

/-- A concrete cached student with embedding `[1]`. -/
def exStudentA : CachedStudent :=
  { id := "a", name := "A", student_id := "sidA", embedding := [1] }

/-- A second concrete cached student with the same embedding `[1]`. -/
def exStudentB : CachedStudent :=
  { id := "b", name := "B", student_id := "sidB", embedding := [1] }

/-! ## Helper lemmas about cosine similarity -/

lemma dot_self_eq_sum_sq (v : List ℝ) :
    dot v v = (v.map (fun x => x * x)).sum := by
  induction v with
  | nil => rfl
  | cons x xs ih =>
      simp only [dot, List.zipWith, List.map_cons, List.sum_cons] at ih ⊢
      rw [ih]

lemma sum_sq_nonneg (v : List ℝ) : 0 ≤ (v.map (fun x => x * x)).sum := by
  apply List.sum_nonneg
  intro x hx
  obtain ⟨y, _, rfl⟩ := List.mem_map.mp hx
  exact mul_self_nonneg y

lemma vnorm_mul_self (v : List ℝ) :
    vnorm v * vnorm v = (v.map (fun x => x * x)).sum :=
  Real.mul_self_sqrt (sum_sq_nonneg v)

lemma vnorm_one : vnorm [(1 : ℝ)] = 1 := by
  simp [vnorm]

lemma cosine_similarity_one_one : cosine_similarity [(1 : ℝ)] [1] = 1 := by
  rw [cosine_similarity, if_neg]
  · simp [dot, vnorm_one]
  · rw [vnorm_one]; norm_num

/-! ## C2: the cosine similarity formula -/

/-- C2: for every pair of vectors whose magnitudes are both non-zero,
`_cosine_similarity(vec1, vec2)` equals the dot product of `vec1` and `vec2`
divided by the product of their magnitudes. -/
theorem cosine_similarity_formula (vec1 vec2 : List ℝ)
    (h1 : vnorm vec1 ≠ 0) (h2 : vnorm vec2 ≠ 0) :
    cosine_similarity vec1 vec2 = dot vec1 vec2 / (vnorm vec1 * vnorm vec2) := by
  rw [cosine_similarity, if_neg (not_or.mpr ⟨h1, h2⟩)]

/-- Witness for C2 at the concrete pair `[1]`, `[1]`. -/
theorem cosine_similarity_formula_witness :
    vnorm [(1 : ℝ)] ≠ 0 ∧
      cosine_similarity [(1 : ℝ)] [1] = dot [1] [1] / (vnorm [1] * vnorm [1]) := by
  have h : vnorm [(1 : ℝ)] ≠ 0 := by rw [vnorm_one]; norm_num
  exact ⟨h, cosine_similarity_formula [1] [1] h h⟩

/-! ## C3: similarity of a vector with itself -/

/-- C3: for every vector with non-zero magnitude, the cosine similarity of the
vector with itself is `1.0`. -/
theorem cosine_similarity_self_eq_one (v : List ℝ) (h : vnorm v ≠ 0) :
    cosine_similarity v v = 1 := by
  have hs : (v.map (fun x => x * x)).sum ≠ 0 := by
    intro h0
    exact h (by rw [vnorm, h0, Real.sqrt_zero])
  rw [cosine_similarity, if_neg (not_or.mpr ⟨h, h⟩),
    dot_self_eq_sum_sq, vnorm_mul_self]
  exact div_self hs

/-- Witness for C3 at the concrete vector `[1]`. -/
theorem cosine_similarity_self_eq_one_witness :
    vnorm [(1 : ℝ)] ≠ 0 ∧ cosine_similarity [(1 : ℝ)] [1] = 1 := by
  have h : vnorm [(1 : ℝ)] ≠ 0 := by rw [vnorm_one]; norm_num
  exact ⟨h, cosine_similarity_self_eq_one [1] h⟩

/-! ## C9: the zero-magnitude guard -/

/-- C9: `_cosine_similarity` is total: whenever either vector has zero
magnitude it returns `0.0` by the guard branch, so the division by the
product of the magnitudes is only reached when both magnitudes are
non-zero. -/
theorem cosine_similarity_zero_guard (vec1 vec2 : List ℝ)
    (h : vnorm vec1 = 0 ∨ vnorm vec2 = 0) :
    cosine_similarity vec1 vec2 = 0 := by
  rw [cosine_similarity, if_pos h]

/-- Witness for C9 at the concrete pair `[0]`, `[1]`. -/
theorem cosine_similarity_zero_guard_witness :
    vnorm [(0 : ℝ)] = 0 ∧ cosine_similarity [(0 : ℝ)] [1] = 0 := by
  have h : vnorm [(0 : ℝ)] = 0 := by simp [vnorm]
  exact ⟨h, cosine_similarity_zero_guard [0] [1] (Or.inl h)⟩

/-! ## Helper lemmas about the matching loop -/

lemma scanStep_pair (cur : List ℝ) (om : Option CachedStudent) (b : ℝ)
    (x : CachedStudent) :
    scanStep cur (om, b) x =
      if b < simOf cur x then (some x, simOf cur x) else (om, b) := rfl

lemma scan_stays_some (cur : List ℝ) :
    ∀ (l : List CachedStudent) (m : CachedStudent) (b : ℝ),
      ∃ s b2, List.foldl (scanStep cur) (some m, b) l = (some s, b2) := by
  intro l
  induction l with
  | nil => exact fun m b => ⟨m, b, rfl⟩
  | cons x xs ih =>
      intro m b
      rw [List.foldl_cons, scanStep_pair]
      by_cases h : b < simOf cur x
      · rw [if_pos h]; exact ih x (simOf cur x)
      · rw [if_neg h]; exact ih m b

lemma scan_none_iff (cur : List ℝ) :
    ∀ (l : List CachedStudent) (b : ℝ),
      (List.foldl (scanStep cur) (none, b) l).1 = none ↔
        ∀ t ∈ l, simOf cur t ≤ b := by
  intro l
  induction l with
  | nil => intro b; simp
  | cons x xs ih =>
      intro b
      rw [List.foldl_cons, scanStep_pair]
      by_cases h : b < simOf cur x
      · rw [if_pos h]
        constructor
        · intro hnone
          obtain ⟨s, b2, heq⟩ := scan_stays_some cur xs x (simOf cur x)
          rw [heq] at hnone
          exact absurd hnone (by simp)
        · intro hall
          exact absurd (hall x (List.mem_cons_self x xs)) (not_le.mpr h)
      · rw [if_neg h, ih b]
        constructor
        · intro hall t ht
          rcases List.mem_cons.mp ht with rfl | ht'
          · exact not_lt.mp h
          · exact hall t ht'
        · intro hall t ht
          exact hall t (List.mem_cons_of_mem x ht)

lemma scan_from_some (cur : List ℝ) :
    ∀ (l : List CachedStudent) (m s : CachedStudent),
      (List.foldl (scanStep cur) (some m, simOf cur m) l).1 = some s →
      (s = m ∧ ∀ t ∈ l, simOf cur t ≤ simOf cur m) ∨
      (∃ pre post, l = pre ++ s :: post ∧ simOf cur m < simOf cur s ∧
        (∀ t ∈ pre, simOf cur t < simOf cur s) ∧
        (∀ t ∈ post, simOf cur t ≤ simOf cur s)) := by
  intro l
  induction l with
  | nil =>
      intro m s h
      simp only [List.foldl_nil] at h
      left
      refine ⟨(Option.some.inj h).symm, ?_⟩
      simp
  | cons x xs ih =>
      intro m s h
      rw [List.foldl_cons, scanStep_pair] at h
      by_cases hx : simOf cur m < simOf cur x
      · rw [if_pos hx] at h
        rcases ih x s h with ⟨rfl, hall⟩ | ⟨pre, post, heq, hms, hpre, hpost⟩
        · right
          exact ⟨[], xs, by simp, hx, by simp, hall⟩
        · right
          refine ⟨x :: pre, post, by rw [heq, List.cons_append],
            lt_trans hx hms, ?_, hpost⟩
          intro t ht
          rcases List.mem_cons.mp ht with rfl | ht'
          · exact hms
          · exact hpre t ht'
      · rw [if_neg hx] at h
        rcases ih m s h with ⟨hsm, hall⟩ | ⟨pre, post, heq, hms, hpre, hpost⟩
        · left
          refine ⟨hsm, ?_⟩
          intro t ht
          rcases List.mem_cons.mp ht with rfl | ht'
          · exact not_lt.mp hx
          · exact hall t ht'
        · right
          refine ⟨x :: pre, post, by rw [heq, List.cons_append], hms, ?_, hpost⟩
          intro t ht
          rcases List.mem_cons.mp ht with rfl | ht'
          · exact lt_of_le_of_lt (not_lt.mp hx) hms
          · exact hpre t ht'

lemma scan_some_first (cur : List ℝ) :
    ∀ (l : List CachedStudent) (b : ℝ) (s : CachedStudent),
      (List.foldl (scanStep cur) (none, b) l).1 = some s →
      ∃ pre post, l = pre ++ s :: post ∧ b < simOf cur s ∧
        (∀ t ∈ pre, simOf cur t < simOf cur s) ∧
        (∀ t ∈ post, simOf cur t ≤ simOf cur s) := by
  intro l
  induction l with
  | nil =>
      intro b s h
      simp at h
  | cons x xs ih =>
      intro b s h
      rw [List.foldl_cons, scanStep_pair] at h
      by_cases hx : b < simOf cur x
      · rw [if_pos hx] at h
        rcases scan_from_some cur xs x s h with ⟨rfl, hall⟩ |
          ⟨pre, post, heq, hxs, hpre, hpost⟩
        · exact ⟨[], xs, by simp, hx, by simp, hall⟩
        · refine ⟨x :: pre, post, by rw [heq, List.cons_append],
            lt_trans hx hxs, ?_, hpost⟩
          intro t ht
          rcases List.mem_cons.mp ht with rfl | ht'
          · exact hxs
          · exact hpre t ht'
      · rw [if_neg hx] at h
        obtain ⟨pre, post, heq, hbs, hpre, hpost⟩ := ih b s h
        refine ⟨x :: pre, post, by rw [heq, List.cons_append], hbs, ?_, hpost⟩
        intro t ht
        rcases List.mem_cons.mp ht with rfl | ht'
        · exact lt_of_le_of_lt (not_lt.mp hx) hbs
        · exact hpre t ht'

lemma scan_keeps (cur : List ℝ) :
    ∀ (l : List CachedStudent) (s : CachedStudent),
      (∀ t ∈ l, simOf cur t ≤ simOf cur s) →
      List.foldl (scanStep cur) (some s, simOf cur s) l =
        (some s, simOf cur s) := by
  intro l
  induction l with
  | nil => intro s _; rfl
  | cons x xs ih =>
      intro s hall
      rw [List.foldl_cons, scanStep_pair,
        if_neg (not_lt.mpr (hall x (List.mem_cons_self x xs)))]
      exact ih s (fun t ht => hall t (List.mem_cons_of_mem x ht))

lemma scan_snd_lt (cur : List ℝ) :
    ∀ (l : List CachedStudent) (om : Option CachedStudent) (b c : ℝ),
      b < c → (∀ t ∈ l, simOf cur t < c) →
      (List.foldl (scanStep cur) (om, b) l).2 < c := by
  intro l
  induction l with
  | nil => intro om b c hb _; exact hb
  | cons x xs ih =>
      intro om b c hb hall
      rw [List.foldl_cons, scanStep_pair]
      by_cases hx : b < simOf cur x
      · rw [if_pos hx]
        exact ih _ _ _ (hall x (List.mem_cons_self x xs))
          (fun t ht => hall t (List.mem_cons_of_mem x ht))
      · rw [if_neg hx]
        exact ih _ _ _ hb (fun t ht => hall t (List.mem_cons_of_mem x ht))

lemma scan_some_of_first (cur : List ℝ) (pre post : List CachedStudent)
    (s : CachedStudent) (b : ℝ) (hbs : b < simOf cur s)
    (hpre : ∀ t ∈ pre, simOf cur t < simOf cur s)
    (hpost : ∀ t ∈ post, simOf cur t ≤ simOf cur s) :
    List.foldl (scanStep cur) (none, b) (pre ++ s :: post) =
      (some s, simOf cur s) := by
  rw [List.foldl_append, List.foldl_cons]
  have h2 : (List.foldl (scanStep cur) (none, b) pre).2 < simOf cur s :=
    scan_snd_lt cur pre none b (simOf cur s) hbs hpre
  have hstep : scanStep cur (List.foldl (scanStep cur) (none, b) pre) s =
      (some s, simOf cur s) := by
    rw [scanStep, if_pos h2]
  rw [hstep]
  exact scan_keeps cur post s hpost

/-! ## C1: which cached student the recognition scan accepts -/

/-- C1 counterexample: with two cached students carrying the same embedding as
the frame (both similarities equal `1 > 0.6`), the second student satisfies
"similarity strictly above 0.6 and maximal over the whole cache", yet the
scan does not accept it as the match (the first student is kept), so the
claimed equivalence is false at this input. -/
theorem recognize_face_match_claim_false :
    ¬ ((bestMatch [exStudentA, exStudentB] [1]).1 = some exStudentB ↔
        (exStudentB ∈ [exStudentA, exStudentB] ∧
         (0.6 : ℝ) < simOf [1] exStudentB ∧
         ∀ t ∈ [exStudentA, exStudentB],
           simOf [1] t ≤ simOf [1] exStudentB)) := by
  have hA : simOf [(1 : ℝ)] exStudentA = 1 := by
    rw [simOf]
    show cosine_similarity [1] [1] = 1
    exact cosine_similarity_one_one
  have hB : simOf [(1 : ℝ)] exStudentB = 1 := by
    rw [simOf]
    show cosine_similarity [1] [1] = 1
    exact cosine_similarity_one_one
  intro hiff
  have hrhs : exStudentB ∈ [exStudentA, exStudentB] ∧
      (0.6 : ℝ) < simOf [1] exStudentB ∧
      ∀ t ∈ [exStudentA, exStudentB], simOf [1] t ≤ simOf [1] exStudentB := by
    refine ⟨by simp, by rw [hB]; norm_num, ?_⟩
    intro t ht
    rcases List.mem_cons.mp ht with rfl | ht'
    · rw [hA, hB]
    · rcases List.mem_cons.mp ht' with rfl | ht''
      · rw [hB]
      · exact absurd ht'' (List.not_mem_nil t)
  have hlhs := hiff.mpr hrhs
  have hcomp : (bestMatch [exStudentA, exStudentB] [(1 : ℝ)]).1 =
      some exStudentA := by
    rw [bestMatch, List.foldl_cons, scanStep_pair, if_pos (by rw [hA]; norm_num),
      hA, List.foldl_cons, scanStep_pair, if_neg (by rw [hB]; norm_num),
      List.foldl_nil]
  rw [hcomp] at hlhs
  have hab : exStudentA = exStudentB := Option.some.inj hlhs
  have hname : exStudentA.name = exStudentB.name := congrArg CachedStudent.name hab
  rw [show exStudentA.name = "A" from rfl, show exStudentB.name = "B" from rfl]
    at hname
  exact absurd hname (by decide)

/-- C1 (amended): the matching loop of `_recognize_face` accepts a cached
student as the match if and only if its cosine similarity with the extracted
embedding is strictly greater than the fixed threshold `0.6`, every earlier
cache entry has strictly smaller similarity, and every later entry has
similarity at most its own — i.e. it is the earliest entry attaining the
maximum similarity, and that maximum exceeds `0.6` (the scan is a single
linear pass).  When no cached student exceeds the threshold the loop keeps no
match and `_recognize_face` returns `("Unknown", "unknown")`. -/
theorem recognize_face_match_spec :
    (∀ (cache : List CachedStudent) (cur : List ℝ) (s : CachedStudent),
      (bestMatch cache cur).1 = some s ↔
        ∃ pre post, cache = pre ++ s :: post ∧ (0.6 : ℝ) < simOf cur s ∧
          (∀ t ∈ pre, simOf cur t < simOf cur s) ∧
          (∀ t ∈ post, simOf cur t ≤ simOf cur s))
    ∧ (∀ (cache : List CachedStudent) (cur : List ℝ),
      (∀ t ∈ cache, simOf cur t ≤ (0.6 : ℝ)) → (bestMatch cache cur).1 = none)
    ∧ (∀ (st : EngineState) (now : ℚ)
        (sr : Except String (List StudentDocSnap)) (n : ℕ) (emb : List ℝ)
        (rest : List (List ℝ)),
      (∀ t ∈ ((update_students_cache st now sr).1).students_cache,
        simOf emb t ≤ (0.6 : ℝ)) →
      (recognize_face st now sr n (Except.ok (emb :: rest))).1 =
        ("Unknown", "unknown")) := by
  refine ⟨?_, ?_, ?_⟩
  · intro cache cur s
    constructor
    · intro h
      exact scan_some_first cur cache (0.6 : ℝ) s h
    · rintro ⟨pre, post, rfl, hbs, hpre, hpost⟩
      rw [bestMatch, scan_some_of_first cur pre post s (0.6 : ℝ) hbs hpre hpost]
  · intro cache cur hall
    exact (scan_none_iff cur cache (0.6 : ℝ)).mpr hall
  · intro st now sr n emb rest hall
    have hb : (bestMatch ((update_students_cache st now sr).1).students_cache
        emb).1 = none :=
      (scan_none_iff emb _ (0.6 : ℝ)).mpr hall
    rw [recognize_face, recognize_face_core]
    by_cases h1 : ((update_students_cache st now sr).1).students_cache.isEmpty
    · rw [if_pos h1]
    · rw [if_neg h1]
      by_cases h2 : n = 0
      · rw [if_pos h2]
      · rw [if_neg h2]
        rcases hbm : bestMatch ((update_students_cache st now sr).1).students_cache
            emb with ⟨om, bv⟩
        rw [hbm] at hb
        simp only at hb
        subst hb
        rfl

/-- Witness for C1 at concrete inputs: from the fresh engine state, a cache
refresh that returns no documents leaves an empty cache, so recognition of
the embedding `[1]` reports `("Unknown", "unknown")`. -/
theorem recognize_face_match_spec_witness :
    (recognize_face initEngineState 100 (Except.ok []) 5
        (Except.ok [[1]])).1 = ("Unknown", "unknown") :=
  recognize_face_match_spec.2.2 initEngineState 100 (Except.ok []) 5 [1] []
    (by
      intro t ht
      exact absurd ht (by norm_num [update_students_cache, initEngineState]))

/-! ## C5: the cache refresh interval -/

/-- C5: a `_update_students_cache` call made less than `cache_lifetime`
seconds after `last_cache_update` returns immediately, performing no database
read and leaving the whole engine state unchanged; only a call at or after
that interval reads the student list and, when the read succeeds, installs
the parsed documents and resets `last_cache_update` to the current time.
`__init__` sets `cache_lifetime` to 60. -/
theorem update_students_cache_interval (st : EngineState) (now : ℚ)
    (sr : Except String (List StudentDocSnap)) :
    (now - st.last_cache_update < st.cache_lifetime →
      update_students_cache st now sr = (st, 0))
    ∧ (¬ now - st.last_cache_update < st.cache_lifetime →
      (update_students_cache st now sr).2 = 1 ∧
      ∀ docs, sr = Except.ok docs →
        (update_students_cache st now sr).1.students_cache =
            docs.filterMap parseCacheEntry ∧
        (update_students_cache st now sr).1.last_cache_update = now)
    ∧ initEngineState.cache_lifetime = 60 := by
  refine ⟨?_, ?_, rfl⟩
  · intro h
    unfold update_students_cache
    rw [if_pos h]
  · intro h
    unfold update_students_cache
    rw [if_neg h]
    cases sr with
    | error e => exact ⟨rfl, fun docs hd => by cases hd⟩
    | ok docs0 =>
        refine ⟨rfl, ?_⟩
        intro docs hd
        cases hd
        exact ⟨rfl, rfl⟩

/-- Witness for C5: 30 seconds after a refresh at time 0, the call leaves the
fresh engine state untouched and performs no read. -/
theorem update_students_cache_interval_witness :
    (30 : ℚ) - initEngineState.last_cache_update <
        initEngineState.cache_lifetime ∧
      update_students_cache initEngineState 30 (Except.ok []) =
        (initEngineState, 0) := by
  have h : (30 : ℚ) - initEngineState.last_cache_update <
      initEngineState.cache_lifetime := by
    norm_num [initEngineState]
  exact ⟨h, (update_students_cache_interval initEngineState 30
    (Except.ok [])).1 h⟩

/-! ## C4: exceptions from wrapped external calls are caught -/

/-- C4: `register_student` and `mark_attendance` never propagate an exception
raised by the wrapped Firestore call — they catch it, log and return `False`
— and `capture_face` returns `None` instead of propagating an exception from
the `DeepFace.represent` call; each external call is attempted at most once,
with no retry. -/
theorem wrapped_calls_never_throw :
    (∀ (students : Collection StudentRecord) (lc : ℚ) (name sid : String)
        (emb : List ℝ) (e : String),
      (register_student students lc name sid emb (Except.error e)).ok = false)
    ∧ (∀ (students : Collection StudentRecord) (lc : ℚ) (name sid : String)
        (emb : List ℝ) (sres : Except String Unit),
      (register_student students lc name sid emb sres).setCalls = 1)
    ∧ (∀ (marked : List String) (sid : String) (info : SessionInfo)
        (addRes : Except String Unit) (now : DateTime) (e : String),
      (mark_attendance marked sid info (Except.error e) addRes now).ok = false)
    ∧ (∀ (marked : List String) (sid : String) (info : SessionInfo)
        (getRes : Except String (Option StudentDocData)) (now : DateTime)
        (e : String),
      (mark_attendance marked sid info getRes (Except.error e) now).ok = false)
    ∧ (∀ (marked : List String) (sid : String) (info : SessionInfo)
        (getRes : Except String (Option StudentDocData))
        (addRes : Except String Unit) (now : DateTime),
      (mark_attendance marked sid info getRes addRes now).getCalls ≤ 1 ∧
      (mark_attendance marked sid info getRes addRes now).addCalls ≤ 1)
    ∧ (∀ (r : Bool) (cam : Option Unit) (rr : Option Image) (hd : Bool)
        (fi : Image) (e : String),
      (capture_face r cam rr hd fi (Except.error e)).result = none)
    ∧ (∀ (r : Bool) (cam : Option Unit) (rr : Option Image) (hd : Bool)
        (fi : Image) (rres : Except String (List (List ℝ))),
      (capture_face r cam rr hd fi rres).representCalls ≤ 1) := by
  refine ⟨?_, ?_, ?_, ?_, ?_, ?_, ?_⟩
  · intro students lc name sid emb e
    rfl
  · intro students lc name sid emb sres
    cases sres <;> rfl
  · intro marked sid info addRes now e
    by_cases h : sid ∈ marked <;> simp [mark_attendance, h]
  · intro marked sid info getRes now e
    by_cases h : sid ∈ marked
    · simp [mark_attendance, h]
    · cases getRes with
      | error e2 => simp [mark_attendance, h]
      | ok od => cases od <;> simp [mark_attendance, h]
  · intro marked sid info getRes addRes now
    by_cases h : sid ∈ marked
    · simp [mark_attendance, h]
    · cases getRes with
      | error e2 => simp [mark_attendance, h]
      | ok od =>
          cases od with
          | none => simp [mark_attendance, h]
          | some d => cases addRes <;> simp [mark_attendance, h]
  · intro r cam rr hd fi e
    unfold capture_face
    split
    · rfl
    · cases rr with
      | none => rfl
      | some fr =>
          simp only
          split
          · rfl
          · split
            · rfl
            · rfl
  · intro r cam rr hd fi rres
    unfold capture_face
    split
    · exact Nat.zero_le 1
    · cases rr with
      | none => exact Nat.zero_le 1
      | some fr =>
          simp only
          split
          · exact Nat.zero_le 1
          · split
            · exact Nat.zero_le 1
            · cases rres with
              | error e => exact le_refl 1
              | ok l => cases l <;> exact le_refl 1

/-! ## C10: the guards of `mark_attendance` -/

/-- C10: for a student already in `attendance_marked`, `mark_attendance`
returns `False` with no database read or write and unchanged state; when the
student document does not exist it returns `False` and writes nothing; and
the student id is added to `attendance_marked` only after the attendance
record has been written. -/
theorem mark_attendance_guards :
    (∀ (marked : List String) (sid : String) (info : SessionInfo)
        (getRes : Except String (Option StudentDocData))
        (addRes : Except String Unit) (now : DateTime),
      sid ∈ marked →
        mark_attendance marked sid info getRes addRes now =
          { ok := false, attendance_marked := marked, writes := []
            getCalls := 0, addCalls := 0 })
    ∧ (∀ (marked : List String) (sid : String) (info : SessionInfo)
        (addRes : Except String Unit) (now : DateTime),
      sid ∉ marked →
        mark_attendance marked sid info (Except.ok none) addRes now =
          { ok := false, attendance_marked := marked, writes := []
            getCalls := 1, addCalls := 0 })
    ∧ (∀ (marked : List String) (sid : String) (info : SessionInfo)
        (getRes : Except String (Option StudentDocData))
        (addRes : Except String Unit) (now : DateTime),
      sid ∉ marked →
      sid ∈ (mark_attendance marked sid info getRes addRes now).attendance_marked →
      (mark_attendance marked sid info getRes addRes now).writes ≠ [] ∧
      (mark_attendance marked sid info getRes addRes now).ok = true) := by
  refine ⟨?_, ?_, ?_⟩
  · intro marked sid info getRes addRes now h
    simp [mark_attendance, h]
  · intro marked sid info addRes now h
    simp [mark_attendance, h]
  · intro marked sid info getRes addRes now h hmem
    cases getRes with
    | error e => simp [mark_attendance, h] at hmem
    | ok od =>
        cases od with
        | none => simp [mark_attendance, h] at hmem
        | some d =>
            cases addRes with
            | error e => simp [mark_attendance, h] at hmem
            | ok u => simp [mark_attendance, h]

/-- Witness for C10: a student already marked in the session is rejected with
no state change and no database traffic. -/
theorem mark_attendance_guards_witness :
    "s1" ∈ ["s1"] ∧
      mark_attendance ["s1"] "s1"
          { doctor_name := none, course_name := none, course_code := none }
          (Except.ok none) (Except.ok ())
          { year := 2024, month := 1, day := 2, hour := 3, minute := 4,
            second := 5 } =
        { ok := false, attendance_marked := ["s1"], writes := []
          getCalls := 0, addCalls := 0 } := by
  have h : "s1" ∈ ["s1"] := List.mem_singleton.mpr rfl
  exact ⟨h, mark_attendance_guards.1 ["s1"] "s1"
    { doctor_name := none, course_name := none, course_code := none }
    (Except.ok none) (Except.ok ())
    { year := 2024, month := 1, day := 2, hour := 3, minute := 4,
      second := 5 } h⟩

/-! ## C7: the contents of a written attendance record -/

/-- C7: every attendance record written by a successful `mark_attendance`
contains the student identifier, the course code taken from `session_info`,
a name snapshot taken from the student document read at marking time (the
cache plays no part: `mark_attendance` never consults it), a server
timestamp, and a derived `lecture_date` string equal to the date portion of
the `marked_at` marking time. -/
theorem attendance_record_fields (marked : List String) (sid : String)
    (info : SessionInfo) (data : StudentDocData) (now : DateTime)
    (h : sid ∉ marked) :
    (mark_attendance marked sid info (Except.ok (some data)) (Except.ok ())
        now).writes = [attendanceData sid data info now] ∧
    (attendanceData sid data info now).student_id = sid ∧
    (attendanceData sid data info now).course_code = info.course_code.getD "" ∧
    (attendanceData sid data info now).name = data.name.getD "Unknown" ∧
    (attendanceData sid data info now).timestamp = WriteTime.serverTimestamp ∧
    (attendanceData sid data info now).lecture_date = formatDate now ∧
    (attendanceData sid data info now).marked_at =
      formatDate now ++ " " ++ formatClock now := by
  refine ⟨?_, rfl, rfl, rfl, rfl, rfl, rfl⟩
  simp [mark_attendance, h]

/-- Witness for C7 at a concrete marking. -/
theorem attendance_record_fields_witness :
    "s9" ∉ ([] : List String) ∧
      (mark_attendance [] "s9"
          { doctor_name := some "Dr", course_name := some "Math",
            course_code := some "M101" }
          (Except.ok (some
            { name := some "Dana", student_id := some "s9",
              embedding := none }))
          (Except.ok ())
          { year := 2024, month := 3, day := 7, hour := 9, minute := 30,
            second := 0 }).writes =
        [attendanceData "s9"
          { name := some "Dana", student_id := some "s9", embedding := none }
          { doctor_name := some "Dr", course_name := some "Math",
            course_code := some "M101" }
          { year := 2024, month := 3, day := 7, hour := 9, minute := 30,
            second := 0 }] := by
  have h : "s9" ∉ ([] : List String) := List.not_mem_nil "s9"
  exact ⟨h, (attendance_record_fields [] "s9"
    { doctor_name := some "Dr", course_name := some "Math",
      course_code := some "M101" }
    { name := some "Dana", student_id := some "s9", embedding := none }
    { year := 2024, month := 3, day := 7, hour := 9, minute := 30,
      second := 0 } h).1⟩

/-! ## C8: identifiers are document keys -/

/-- C8: `register_student` stores the student document under `student_id` as
its document id and `add_course` stores the course document under
`course_code`; since the collection is keyed by document id there is at most
one stored record per identifier, and a `set` with an already-used identifier
succeeds and replaces the existing record (all other keys unchanged) rather
than creating a duplicate or failing. -/
theorem keyed_document_storage :
    (∀ (students : Collection StudentRecord) (lc : ℚ) (name sid : String)
        (emb : List ℝ),
      (register_student students lc name sid emb (Except.ok ())).ok = true ∧
      (register_student students lc name sid emb (Except.ok ())).students sid =
        some { name := name, student_id := sid, embedding := emb
               registered_at := WriteTime.serverTimestamp } ∧
      ∀ k, k ≠ sid →
        (register_student students lc name sid emb (Except.ok ())).students k =
          students k)
    ∧ (∀ (courses : Collection CourseRecord) (cn cc dn pw : String)
        (sd : DateTime) (ltime : String) (tl cap : ℤ) (cnow : DateTime),
      0 < tl → 0 < cap →
      (add_course courses cn cc dn pw sd ltime tl cap cnow
          (Except.ok ())).1 = true ∧
      (add_course courses cn cc dn pw sd ltime tl cap cnow
          (Except.ok ())).2 cc =
        some { course_name := cn, course_code := cc, doctor_name := dn,
               password := pw, start_date := sd, lecture_time := ltime,
               total_lectures := tl, class_capacity := cap,
               created_at := cnow } ∧
      ∀ k, k ≠ cc →
        (add_course courses cn cc dn pw sd ltime tl cap cnow
            (Except.ok ())).2 k = courses k) := by
  constructor
  · intro students lc name sid emb
    refine ⟨rfl, ?_, ?_⟩
    · simp [register_student, setDoc]
    · intro k hk
      simp [register_student, setDoc, hk]
  · intro courses cn cc dn pw sd ltime tl cap cnow htl hcap
    have hguard : ¬ (tl ≤ 0 ∨ cap ≤ 0) :=
      not_or.mpr ⟨not_le.mpr htl, not_le.mpr hcap⟩
    refine ⟨?_, ?_, ?_⟩
    · simp [add_course, hguard]
    · simp [add_course, hguard, setDoc]
    · intro k hk
      simp [add_course, hguard, setDoc, hk]

/-- Witness for C8: adding a concrete course with positive lecture count and
capacity stores it under its course code. -/
theorem keyed_document_storage_witness :
    (0 : ℤ) < 10 ∧ (0 : ℤ) < 30 ∧
      (add_course (fun _ => none) "Calculus" "M101" "Dr" "pw"
          { year := 2024, month := 9, day := 1, hour := 0, minute := 0,
            second := 0 } "10:00" 10 30
          { year := 2024, month := 8, day := 20, hour := 12, minute := 0,
            second := 0 } (Except.ok ())).2 "M101" =
        some { course_name := "Calculus", course_code := "M101",
               doctor_name := "Dr", password := "pw",
               start_date :=
                 { year := 2024, month := 9, day := 1, hour := 0,
                   minute := 0, second := 0 },
               lecture_time := "10:00", total_lectures := 10,
               class_capacity := 30,
               created_at :=
                 { year := 2024, month := 8, day := 20, hour := 12,
                   minute := 0, second := 0 } } := by
  refine ⟨by norm_num, by norm_num, ?_⟩
  exact (keyed_document_storage.2 (fun _ => none) "Calculus" "M101" "Dr" "pw"
    { year := 2024, month := 9, day := 1, hour := 0, minute := 0, second := 0 }
    "10:00" 10 30
    { year := 2024, month := 8, day := 20, hour := 12, minute := 0,
      second := 0 } (by norm_num) (by norm_num)).2.1

/-! ## C6: the streaming generator -/

lemma video_feed_loop_eq_map (frames : List (Option (List ℕ))) :
    video_feed_loop frames =
      frames.map (fun r =>
        match r with
        | none => FeedEvent.sleep (1/10)
        | some f => FeedEvent.chunk (mkChunk f)) := by
  induction frames with
  | nil => rfl
  | cons x rest ih =>
      cases x with
      | none => simp [video_feed_loop, ih]
      | some f => simp [video_feed_loop, ih]

/-- C6: with an initialized engine, the `video_feed` generator never emits a
`None` frame: each `None` result of `get_frame` produces exactly a
`time.sleep(0.1)` retry in its place, and every chunk the generator yields is
the multipart encoding of a frame previously returned by `get_frame`. -/
theorem video_feed_frames (frames : List (Option (List ℕ))) :
    video_feed (some ()) frames =
      frames.map (fun r =>
        match r with
        | none => FeedEvent.sleep (1/10)
        | some f => FeedEvent.chunk (mkChunk f)) ∧
    (∀ p, FeedEvent.chunk p ∈ video_feed (some ()) frames →
      ∃ f, some f ∈ frames ∧ p = mkChunk f) ∧
    (∀ i : ℕ, frames[i]? = some none →
      (video_feed (some ()) frames)[i]? =
        some (FeedEvent.sleep (1/10))) := by
  refine ⟨video_feed_loop_eq_map frames, ?_, ?_⟩
  · show ∀ p, FeedEvent.chunk p ∈ video_feed_loop frames →
      ∃ f, some f ∈ frames ∧ p = mkChunk f
    induction frames with
    | nil => intro p hp; exact absurd hp (List.not_mem_nil _)
    | cons x rest ih =>
        intro p hp
        cases x with
        | none =>
            rcases List.mem_cons.mp hp with heq | hp'
            · cases heq
            · obtain ⟨f, hf, hpf⟩ := ih p hp'
              exact ⟨f, List.mem_cons_of_mem _ hf, hpf⟩
        | some f0 =>
            rcases List.mem_cons.mp hp with heq | hp'
            · exact ⟨f0, List.mem_cons_self _ _, FeedEvent.chunk.inj heq⟩
            · obtain ⟨f, hf, hpf⟩ := ih p hp'
              exact ⟨f, List.mem_cons_of_mem _ hf, hpf⟩
  · intro i hi
    show (video_feed_loop frames)[i]? = some (FeedEvent.sleep (1/10))
    rw [video_feed_loop_eq_map, List.getElem?_map, hi]
    rfl

/-- Witness for C6: with one pending `None` result the generator's first
event is the `0.1` second sleep. -/
theorem video_feed_frames_witness :
    (video_feed (some ()) [none])[0]? =
      some (FeedEvent.sleep (1/10)) :=
  (video_feed_frames [none]).2.2 0 rfl
